import Mathlib

/-!
Verification development for the Vision_buisness monitoring-and-aggregation core.

The Python sources are shallowly embedded: real-valued quantities (seconds,
scores, timestamps) are modelled as rationals, machine enums as inductive
types, sqlite tables as lists of rows, and fallible Python operations as
Except values.  Each definition is translated from the named source function.
-/

namespace VisionBusiness

/-- Focus states of the camera monitor (monitoring/i_focus_detector.py). -/
inductive FocusState
  | FOCUSED
  | DISTRACTED
  | AWAY
deriving DecidableEq, Repr

/-- Activity labels of the PC monitor (monitoring/i_activity_classifier.py). -/
inductive ActivityLabel
  | WORK
  | NON_WORK
  | IDLE
deriving DecidableEq, Repr

/-- Productivity categories (monitoring/base_productivity_calculator.py). -/
inductive ProductivityCategory
  | PERFECT
  | VERY_GOOD
  | GOOD
  | BAD
  | WORSE
deriving DecidableEq, Repr

/-- ProductivityCalculator.calculate_score
(monitoring/productivity_calculator.py, lines 20-45).  Float arithmetic is
modelled with rationals; 0.5 is 1/2. -/
def calculate_score (focused_seconds non_work_seconds idle_seconds : ℚ)
    (late_minutes : ℤ) : ℚ :=
  let total := focused_seconds + non_work_seconds + idle_seconds
  if total ≤ 0 then 0
  else
    let base_score := focused_seconds / total * 100
    let non_work_penalty := non_work_seconds / total * 40
    let idle_penalty := idle_seconds / total * 20
    let late_penalty := min (max (late_minutes : ℚ) 0 * (1/2)) 20
    max 0 (min 100 (base_score - non_work_penalty - idle_penalty - late_penalty))

/-- Clamp x into the interval from lo to hi, as written in the spec formula. -/
def clamp (x lo hi : ℚ) : ℚ := max lo (min hi x)

/-- Reference scoring formula stated from the words of spec section 4.4, for
comparison with calculate_score. -/
def spec_reference_score (focused non_work idle : ℚ) (late : ℤ) : ℚ :=
  let total := focused + non_work + idle
  if total ≤ 0 then 0
  else
    clamp (focused / total * 100 - non_work / total * 40 - idle / total * 20
      - min (max (late : ℚ) 0 * (1/2)) 20) 0 100

/-- BaseProductivityCalculator.categorize
(Vision_buisness-main/monitoring/base_productivity_calculator.py, lines 35-47). -/
def categorize (score : ℚ) : ProductivityCategory :=
  if score ≥ 90 then .PERFECT
  else if score ≥ 80 then .VERY_GOOD
  else if score ≥ 70 then .GOOD
  else if score ≥ 60 then .BAD
  else .WORSE

/-- Name of a category member, as Python Enum .name. -/
def category_name : ProductivityCategory → String
  | .PERFECT => "PERFECT"
  | .VERY_GOOD => "VERY_GOOD"
  | .GOOD => "GOOD"
  | .BAD => "BAD"
  | .WORSE => "WORSE"

/-- C1: calculate_score equals the spec reference formula on non-negative
inputs, always lies in the interval from 0 to 100, and full focused time with
no penalties scores exactly 100. -/
theorem calculate_score_meets_spec (f nw idle : ℚ) (late : ℤ)
    (hf : 0 ≤ f) (hnw : 0 ≤ nw) (hi : 0 ≤ idle) :
    calculate_score f nw idle late = spec_reference_score f nw idle late ∧
    0 ≤ calculate_score f nw idle late ∧
    calculate_score f nw idle late ≤ 100 ∧
    (0 < f → calculate_score f 0 0 0 = 100) := by
  refine ⟨rfl, ?_, ?_, ?_⟩
  · unfold calculate_score
    dsimp only
    split
    · exact le_refl 0
    · exact le_max_left 0 _
  · unfold calculate_score
    dsimp only
    split
    · norm_num
    · exact max_le (by norm_num) (min_le_left _ _)
  · intro hfpos
    have hne : f ≠ 0 := ne_of_gt hfpos
    unfold calculate_score
    dsimp only
    rw [if_neg (by simpa using not_le.mpr hfpos)]
    simp [div_self hne]

/-- Witness for calculate_score_meets_spec at focused 3 seconds. -/
theorem calculate_score_meets_spec_witness :
    calculate_score 3 0 0 0 = spec_reference_score 3 0 0 0 ∧
    0 ≤ calculate_score 3 0 0 0 ∧
    calculate_score 3 0 0 0 ≤ 100 ∧
    (0 < (3:ℚ) → calculate_score 3 0 0 0 = 100) :=
  calculate_score_meets_spec 3 0 0 0 (by norm_num) (by norm_num) (by norm_num)

/-- C8: categorize maps each band to its category with inclusive lower
bounds, and the spec boundary examples evaluate as stated. -/
theorem categorize_bands (s : ℚ) :
    (90 ≤ s → categorize s = .PERFECT) ∧
    (80 ≤ s ∧ s < 90 → categorize s = .VERY_GOOD) ∧
    (70 ≤ s ∧ s < 80 → categorize s = .GOOD) ∧
    (60 ≤ s ∧ s < 70 → categorize s = .BAD) ∧
    (s < 60 → categorize s = .WORSE) ∧
    categorize 90 = .PERFECT ∧ categorize (899/10) = .VERY_GOOD ∧
    categorize 60 = .BAD ∧ categorize (599/10) = .WORSE := by
  refine ⟨?_, ?_, ?_, ?_, ?_, by norm_num [categorize], by norm_num [categorize],
    by norm_num [categorize], by norm_num [categorize]⟩
  · intro h
    unfold categorize
    rw [if_pos h]
  · rintro ⟨h1, h2⟩
    unfold categorize
    rw [if_neg (not_le.mpr h2), if_pos h1]
  · rintro ⟨h1, h2⟩
    unfold categorize
    rw [if_neg (not_le.mpr (by linarith)), if_neg (not_le.mpr h2), if_pos h1]
  · rintro ⟨h1, h2⟩
    unfold categorize
    rw [if_neg (not_le.mpr (by linarith)), if_neg (not_le.mpr (by linarith)),
      if_neg (not_le.mpr h2), if_pos h1]
  · intro h
    unfold categorize
    rw [if_neg (not_le.mpr (by linarith)), if_neg (not_le.mpr (by linarith)),
      if_neg (not_le.mpr (by linarith)), if_neg (not_le.mpr h)]

/-- Witness for categorize_bands: one sample score inside each band. -/
theorem categorize_bands_witness :
    categorize 95 = .PERFECT ∧ categorize 85 = .VERY_GOOD ∧
    categorize 75 = .GOOD ∧ categorize 65 = .BAD ∧ categorize 55 = .WORSE :=
  ⟨(categorize_bands 95).1 (by norm_num),
   (categorize_bands 85).2.1 ⟨by norm_num, by norm_num⟩,
   (categorize_bands 75).2.2.1 ⟨by norm_num, by norm_num⟩,
   (categorize_bands 65).2.2.2.1 ⟨by norm_num, by norm_num⟩,
   (categorize_bands 55).2.2.2.2.1 (by norm_num)⟩

/-- Smoothing and accounting state of CameraMonitor: the stable state, the
pending candidate with its accumulated duration, and the per-state second
accumulators (monitoring/camera_monitor.py, constructor lines 50-63). -/
structure CamState where
  current_state : FocusState
  pending_state : FocusState
  pending_duration : ℚ
  focused_seconds : ℚ
  distracted_seconds : ℚ
  away_seconds : ℚ
deriving DecidableEq, Repr

/-- Initial smoothing state set in CameraMonitor.__init__. -/
def cam_init : CamState :=
  { current_state := .AWAY, pending_state := .AWAY, pending_duration := 0,
    focused_seconds := 0, distracted_seconds := 0, away_seconds := 0 }

/-- CameraMonitor._update_stable_state (monitoring/camera_monitor.py,
lines 205-227); stab is self.stabilization_seconds. -/
def update_stable_state (stab : ℚ) (raw_state : FocusState) (delta : ℚ)
    (s : CamState) : CamState :=
  if raw_state = s.current_state then
    { s with pending_state := s.current_state, pending_duration := 0 }
  else if raw_state = s.pending_state then
    let d := s.pending_duration + delta
    if d ≥ stab then
      { s with current_state := raw_state, pending_duration := 0 }
    else
      { s with pending_duration := d }
  else
    { s with pending_state := raw_state, pending_duration := 0 }

/-- One iteration of CameraMonitor._loop after a successful frame read,
restricted to the smoothing, second-crediting and callback logic
(monitoring/camera_monitor.py, lines 156-196).  The loop body invokes
_update_stable_state twice with the same raw state and delta (lines 162 and
166), reads stable_state_before only between the two invocations (line 165),
credits delta to the stable state, and calls on_state_update with the current
state only when the state after the second invocation differs from
stable_state_before.  The returned option is the callback argument, none when
the callback is not invoked. -/
def cam_loop_sample (stab : ℚ) (raw_state : FocusState) (delta : ℚ)
    (s : CamState) : CamState × Option FocusState :=
  let s1 := update_stable_state stab raw_state delta s
  let stable_state_before := s1.current_state
  let s2 := update_stable_state stab raw_state delta s1
  let stable_state_after := s2.current_state
  let s3 :=
    match s2.current_state with
    | .FOCUSED => { s2 with focused_seconds := s2.focused_seconds + delta }
    | .DISTRACTED => { s2 with distracted_seconds := s2.distracted_seconds + delta }
    | .AWAY => { s2 with away_seconds := s2.away_seconds + delta }
  if stable_state_after ≠ stable_state_before then (s3, some s3.current_state)
  else (s3, none)

/-- Run the camera sampling loop over a list of (raw state, delta) samples,
collecting one callback record per sample. -/
def cam_run (stab : ℚ) (samples : List (FocusState × ℚ)) (s : CamState) :
    CamState × List (Option FocusState) :=
  match samples with
  | [] => (s, [])
  | (raw, delta) :: rest =>
    let step := cam_loop_sample stab raw delta s
    let tail := cam_run stab rest step.1
    (tail.1, step.2 :: tail.2)

/-- Evaluation of the first scenario sample: the FOCUSED candidacy starts and
the two smoothing invocations accumulate 0.5 s of pending duration. -/
theorem cam_sample1_eval :
    cam_loop_sample 2 .FOCUSED (1/2) cam_init
      = (⟨.AWAY, .FOCUSED, 1/2, 0, 0, 1/2⟩, none) := by
  simp [cam_loop_sample, update_stable_state, cam_init]
  repeat (first | (norm_num; simp) | norm_num | simp)

/-- Evaluation of the second scenario sample: pending duration reaches 1.5 s
after two samples of 0.5 s because each sample is counted twice. -/
theorem cam_sample2_eval :
    cam_loop_sample 2 .FOCUSED (1/2) ⟨.AWAY, .FOCUSED, 1/2, 0, 0, 1/2⟩
      = (⟨.AWAY, .FOCUSED, 3/2, 0, 0, 1⟩, none) := by
  simp [cam_loop_sample, update_stable_state]
  repeat (first | (norm_num; simp) | norm_num | simp)

/-- Evaluation of the third scenario sample: the first smoothing invocation
reaches 2.0 s of counted pending duration and commits FOCUSED, the second
resets the pending entry, and no callback is emitted because
stable_state_before was read after the commit. -/
theorem cam_sample3_eval :
    cam_loop_sample 2 .FOCUSED (1/2) ⟨.AWAY, .FOCUSED, 3/2, 0, 0, 1⟩
      = (⟨.FOCUSED, .FOCUSED, 0, 1/2, 0, 1⟩, none) := by
  simp [cam_loop_sample, update_stable_state]
  repeat (first | (norm_num; simp) | norm_num | simp)

/-- Evaluation of the fourth scenario sample: raw agrees with stable, nothing
changes and no callback is emitted. -/
theorem cam_sample4_eval :
    cam_loop_sample 2 .FOCUSED (1/2) ⟨.FOCUSED, .FOCUSED, 0, 1/2, 0, 1⟩
      = (⟨.FOCUSED, .FOCUSED, 0, 1, 0, 1⟩, none) := by
  simp [cam_loop_sample, update_stable_state]
  repeat (first | (norm_num; simp) | norm_num | simp)

/-- Run of the first two scenario samples. -/
theorem cam_run2_eval :
    cam_run 2 [(.FOCUSED, 1/2), (.FOCUSED, 1/2)] cam_init
      = (⟨.AWAY, .FOCUSED, 3/2, 0, 0, 1⟩, [none, none]) := by
  simp only [cam_run, cam_sample1_eval, cam_sample2_eval]

/-- Run of the first three scenario samples: the stable state is already
FOCUSED and no callback has been recorded. -/
theorem cam_run3_eval :
    cam_run 2 [(.FOCUSED, 1/2), (.FOCUSED, 1/2), (.FOCUSED, 1/2)] cam_init
      = (⟨.FOCUSED, .FOCUSED, 0, 1/2, 0, 1⟩, [none, none, none]) := by
  simp only [cam_run, cam_sample1_eval, cam_sample2_eval, cam_sample3_eval]

/-- Run of all four scenario samples. -/
theorem cam_run4_eval :
    cam_run 2 [(.FOCUSED, 1/2), (.FOCUSED, 1/2), (.FOCUSED, 1/2),
      (.FOCUSED, 1/2)] cam_init
      = (⟨.FOCUSED, .FOCUSED, 0, 1, 0, 1⟩, [none, none, none, none]) := by
  simp only [cam_run, cam_sample1_eval, cam_sample2_eval, cam_sample3_eval,
    cam_sample4_eval]

/-- C2: in the spec scenario (stabilization 2.0 s, stable AWAY, raw FOCUSED
sustained over samples of 0.5 s), the code commits the stable transition to
FOCUSED already at the third sample, because _loop feeds every sample to
_update_stable_state twice; the candidacy that began at the first sample has
then lasted only 1.0 s of real time, not the 2.0 s the claim requires, and no
transition callback is ever recorded over the four samples of the scenario. -/
theorem stable_transition_fires_early :
    (cam_run 2 [(.FOCUSED, 1/2), (.FOCUSED, 1/2)] cam_init).1.current_state
      = .AWAY ∧
    (cam_run 2 [(.FOCUSED, 1/2), (.FOCUSED, 1/2), (.FOCUSED, 1/2)]
      cam_init).1.current_state = .FOCUSED ∧
    (cam_run 2 [(.FOCUSED, 1/2), (.FOCUSED, 1/2), (.FOCUSED, 1/2),
      (.FOCUSED, 1/2)] cam_init).2 = [none, none, none, none] := by
  refine ⟨?_, ?_, ?_⟩
  · simp only [cam_run2_eval]
  · simp only [cam_run3_eval]
  · simp only [cam_run4_eval]

/-- C4: across the third sample of the scenario the stable state changes from
AWAY to FOCUSED, yet the sample emits no on_state_update callback: the commit
happens in the first of the two _update_stable_state invocations, before
stable_state_before is read, so the change test in _loop compares two equal
values. -/
theorem observer_missed_on_transition :
    ((cam_run 2 [(.FOCUSED, 1/2), (.FOCUSED, 1/2)] cam_init).1.current_state
      = .AWAY) ∧
    ((cam_loop_sample 2 .FOCUSED (1/2)
      (cam_run 2 [(.FOCUSED, 1/2), (.FOCUSED, 1/2)] cam_init).1).1.current_state
      = .FOCUSED) ∧
    ((cam_loop_sample 2 .FOCUSED (1/2)
      (cam_run 2 [(.FOCUSED, 1/2), (.FOCUSED, 1/2)] cam_init).1).2 = none) := by
  refine ⟨?_, ?_, ?_⟩
  · simp only [cam_run2_eval]
  · simp only [cam_run2_eval, cam_sample3_eval]
  · simp only [cam_run2_eval, cam_sample3_eval]

/-- Work application allow-list from PCActivityMonitor.__init__
(monitoring/pc_activity_monitor.py, lines 62-69); a Python set, modelled as a
list used only through membership. -/
def work_apps : List String :=
  ["code.exe", "pycharm.exe", "python.exe", "chrome.exe", "excel.exe", "word.exe"]

/-- PCActivityMonitor.classify_activity (monitoring/pc_activity_monitor.py,
lines 164-171): a missing or empty app name is falsy in Python and yields
IDLE; a member of work_apps yields WORK; anything else yields NON_WORK. -/
def classify_activity (app_name : Option String) : ActivityLabel :=
  match app_name with
  | none => .IDLE
  | some s =>
    if s = "" then .IDLE
    else if work_apps.contains s then .WORK
    else .NON_WORK

/-- Character-wise ASCII lowercasing, modelling Python str.lower() on process
names. -/
def lower_name (s : String) : String :=
  ⟨s.data.map Char.toLower⟩

/-- PCActivityMonitor._get_active_app_name (lines 94-106) returns the
foreground process name lowercased, or none when there is no foreground
window or the process lookup fails; raw is the process name when resolution
succeeds. -/
def get_active_app_name (raw : Option String) : Option String :=
  raw.map lower_name

/-- Second accumulators of PCActivityMonitor. -/
structure PCCounters where
  work_seconds : ℚ
  non_work_seconds : ℚ
  idle_seconds : ℚ
deriving DecidableEq, Repr

/-- One iteration of PCActivityMonitor._loop (lines 129-158): when the
measured idle time reaches the threshold, delta is credited to idle_seconds
and (none, IDLE) is reported; otherwise the resolved app name is classified
and delta is credited to work_seconds exactly when the label is WORK and to
non_work_seconds for every other label; the pair (app_name, label) handed to
on_update is returned. -/
def pc_loop_step (idle_threshold : ℚ) (idle_time : ℚ) (app_name : Option String)
    (delta : ℚ) (s : PCCounters) : PCCounters × Option String × ActivityLabel :=
  if idle_time ≥ idle_threshold then
    ({ s with idle_seconds := s.idle_seconds + delta }, none, .IDLE)
  else
    let label := classify_activity app_name
    if label = .WORK then
      ({ s with work_seconds := s.work_seconds + delta }, app_name, label)
    else
      ({ s with non_work_seconds := s.non_work_seconds + delta }, app_name, label)

/-- C7 counterexample: an unresolvable foreground identity (app name none) is
classified IDLE by the code, not NON_WORK as the claim states. -/
theorem classify_none_is_idle_not_non_work :
    classify_activity none = .IDLE ∧ classify_activity none ≠ .NON_WORK := by
  exact ⟨rfl, by decide⟩

/-- C7 amended: below the idle threshold, a resolvable identity in the
allow-list is WORK (membership is exact on the lowercased name the resolver
produces, hence case-insensitive in the pipeline), any other resolvable
non-empty identity is NON_WORK, and both an unresolvable identity and one
resolving to the empty string are IDLE. -/
theorem classify_activity_cases (s t : String) :
    classify_activity none = .IDLE ∧
    classify_activity (some "") = .IDLE ∧
    (s ≠ "" → s ∈ work_apps → classify_activity (some s) = .WORK) ∧
    (s ≠ "" → s ∉ work_apps → classify_activity (some s) = .NON_WORK) ∧
    (lower_name t ≠ "" → lower_name t ∈ work_apps →
      classify_activity (get_active_app_name (some t)) = .WORK) := by
  refine ⟨rfl, rfl, ?_, ?_, ?_⟩
  · intro hne hmem
    simp [classify_activity, hne, hmem]
  · intro hne hmem
    simp [classify_activity, hne, hmem]
  · intro hne hmem
    simp [get_active_app_name, classify_activity, hne, hmem]

/-- Witness for classify_activity_cases on a member and a non-member. -/
theorem classify_activity_cases_witness :
    classify_activity (some "code.exe") = .WORK ∧
    classify_activity (some "steam.exe") = .NON_WORK ∧
    classify_activity (get_active_app_name (some "CODE.EXE")) = .WORK :=
  ⟨(classify_activity_cases "code.exe" "CODE.EXE").2.2.1 (by decide) (by decide),
   (classify_activity_cases "steam.exe" "CODE.EXE").2.2.2.1 (by decide)
     (by decide),
   (classify_activity_cases "steam.exe" "CODE.EXE").2.2.2.2 (by decide)
     (by decide)⟩

/-- C10: on a sample below the idle threshold whose app name is none or the
empty string, the label reported to on_update is IDLE while the elapsed delta
is credited to non_work_seconds, and work_seconds and idle_seconds are left
unchanged. -/
theorem idle_label_credits_non_work (thr idle_t delta : ℚ) (app : Option String)
    (s : PCCounters) (hidle : idle_t < thr)
    (happ : app = none ∨ app = some "") :
    (pc_loop_step thr idle_t app delta s).2.2 = .IDLE ∧
    (pc_loop_step thr idle_t app delta s).1.non_work_seconds
      = s.non_work_seconds + delta ∧
    (pc_loop_step thr idle_t app delta s).1.work_seconds = s.work_seconds ∧
    (pc_loop_step thr idle_t app delta s).1.idle_seconds = s.idle_seconds := by
  rcases happ with h | h <;> subst h <;>
    simp [pc_loop_step, classify_activity, not_le.mpr hidle]

/-- Witness for idle_label_credits_non_work: idle for 5 s with threshold 60 s
and an unresolvable app name. -/
theorem idle_label_credits_non_work_witness :
    (pc_loop_step 60 5 none 2 ⟨0, 0, 0⟩).2.2 = .IDLE ∧
    (pc_loop_step 60 5 none 2 ⟨0, 0, 0⟩).1.non_work_seconds = 0 + 2 ∧
    (pc_loop_step 60 5 none 2 ⟨0, 0, 0⟩).1.work_seconds = 0 ∧
    (pc_loop_step 60 5 none 2 ⟨0, 0, 0⟩).1.idle_seconds = 0 :=
  idle_label_credits_non_work 60 5 2 none ⟨0, 0, 0⟩ (by norm_num) (Or.inl rfl)

/-- Shift statuses (monitoring/shift_tracker.py, ShiftStatus). -/
inductive ShiftStatus
  | NO_SHIFT
  | BEFORE_SHIFT
  | IN_SHIFT
  | AFTER_SHIFT
deriving DecidableEq, Repr

/-- Snapshot of the shift status (monitoring/shift_tracker.py, ShiftState). -/
structure ShiftState where
  status : ShiftStatus
  start_time : Option ℚ
  end_time : Option ℚ
  worked_minutes : ℤ
  remaining_minutes : ℤ
  late_minutes : ℤ
deriving DecidableEq, Repr

/-- ShiftTracker._compute_state (monitoring/shift_tracker.py, lines 142-187).
Timestamps are rational seconds; int(x.total_seconds() // 60) is the floor of
the minute count.  current_shift carries the pair (start_time, end_time) of
the shift row, check_in_time is the value captured by start(). -/
def compute_state (current_shift : Option (ℚ × ℚ)) (check_in_time : Option ℚ)
    (now : ℚ) : ShiftState :=
  match current_shift with
  | none =>
    { status := .NO_SHIFT, start_time := none, end_time := none,
      worked_minutes := 0, remaining_minutes := 0, late_minutes := 0 }
  | some (start, stop) =>
    let late : ℤ :=
      match check_in_time with
      | some c => if start < c then ⌊(c - start) / 60⌋ else 0
      | none => 0
    if now < start then
      { status := .BEFORE_SHIFT, start_time := some start, end_time := some stop,
        worked_minutes := 0, remaining_minutes := max 0 ⌊(start - now) / 60⌋,
        late_minutes := late }
    else if start ≤ now ∧ now ≤ stop then
      { status := .IN_SHIFT, start_time := some start, end_time := some stop,
        worked_minutes := ⌊(now - start) / 60⌋,
        remaining_minutes := max 0 ⌊(stop - now) / 60⌋, late_minutes := late }
    else
      { status := .AFTER_SHIFT, start_time := some start, end_time := some stop,
        worked_minutes := ⌊(stop - start) / 60⌋, remaining_minutes := 0,
        late_minutes := late }

/-- Helper: the late_minutes field of every snapshot of a configured shift is
the value computed from check-in and start alone. -/
theorem compute_state_late_eval (start stop c now : ℚ) :
    (compute_state (some (start, stop)) (some c) now).late_minutes
      = if start < c then ⌊(c - start) / 60⌋ else 0 := by
  unfold compute_state
  dsimp only
  split_ifs <;> rfl

/-- C6: compute_state matches the claimed pure state machine: NO_SHIFT with
zeroed minutes when no shift is configured; BEFORE_SHIFT with worked 0 and
remaining the whole minutes to start when now is before start; IN_SHIFT with
worked the whole minutes since start and remaining the whole minutes to the
shift end inside the window; AFTER_SHIFT with worked the whole window length
and remaining 0 after the end; and late_minutes always equals
max 0 (floor minutes from start to check-in), independent of now. -/
theorem compute_state_matches_spec (start stop c now : ℚ) (hse : start ≤ stop) :
    (∀ ci n2, compute_state none ci n2
      = ⟨.NO_SHIFT, none, none, 0, 0, 0⟩) ∧
    (now < start →
      (compute_state (some (start, stop)) (some c) now).status = .BEFORE_SHIFT ∧
      (compute_state (some (start, stop)) (some c) now).worked_minutes = 0 ∧
      (compute_state (some (start, stop)) (some c) now).remaining_minutes
        = ⌊(start - now) / 60⌋) ∧
    (start ≤ now → now ≤ stop →
      (compute_state (some (start, stop)) (some c) now).status = .IN_SHIFT ∧
      (compute_state (some (start, stop)) (some c) now).worked_minutes
        = ⌊(now - start) / 60⌋ ∧
      (compute_state (some (start, stop)) (some c) now).remaining_minutes
        = ⌊(stop - now) / 60⌋) ∧
    (stop < now →
      (compute_state (some (start, stop)) (some c) now).status = .AFTER_SHIFT ∧
      (compute_state (some (start, stop)) (some c) now).worked_minutes
        = ⌊(stop - start) / 60⌋ ∧
      (compute_state (some (start, stop)) (some c) now).remaining_minutes = 0) ∧
    ((compute_state (some (start, stop)) (some c) now).late_minutes
      = max 0 ⌊(c - start) / 60⌋) ∧
    (∀ n1 n2, (compute_state (some (start, stop)) (some c) n1).late_minutes
      = (compute_state (some (start, stop)) (some c) n2).late_minutes) := by
  have hlate : (if start < c then ⌊(c - start) / 60⌋ else (0:ℤ))
      = max 0 ⌊(c - start) / 60⌋ := by
    split_ifs with h
    · have hpos : (0:ℤ) ≤ ⌊(c - start) / 60⌋ := by
        rw [Int.le_floor]
        push_cast
        exact div_nonneg (by linarith) (by norm_num)
      omega
    · have hneg : ⌊(c - start) / 60⌋ ≤ 0 := by
        apply Int.floor_nonpos
        have hcs : c - start ≤ 0 := by linarith
        linarith
      omega
  refine ⟨fun ci n2 => rfl, ?_, ?_, ?_, ?_, ?_⟩
  · intro hb
    have hrem : max 0 ⌊(start - now) / 60⌋ = ⌊(start - now) / 60⌋ := by
      have hpos : (0:ℤ) ≤ ⌊(start - now) / 60⌋ := by
        rw [Int.le_floor]
        push_cast
        exact div_nonneg (by linarith) (by norm_num)
      omega
    simp [compute_state, if_pos hb, hrem]
  · intro h1 h2
    have hrem : max 0 ⌊(stop - now) / 60⌋ = ⌊(stop - now) / 60⌋ := by
      have hpos : (0:ℤ) ≤ ⌊(stop - now) / 60⌋ := by
        rw [Int.le_floor]
        push_cast
        exact div_nonneg (by linarith) (by norm_num)
      omega
    simp [compute_state, if_neg (not_lt.mpr h1), if_pos (And.intro h1 h2), hrem]
  · intro ha
    have h1 : ¬ now < start := by
      push_neg
      linarith
    have h2 : ¬ (start ≤ now ∧ now ≤ stop) := by
      push_neg
      intro _
      linarith
    simp [compute_state, if_neg h1, if_neg h2]
  · rw [compute_state_late_eval, hlate]
  · intro n1 n2
    rw [compute_state_late_eval, compute_state_late_eval]

/-- Witness for compute_state_matches_spec: shift 09:00 to 17:00 (32400 and
61200 seconds of day), check-in 09:12 (33120), observed at 10:00 (36000);
the snapshot is IN_SHIFT with late_minutes 12. -/
theorem compute_state_matches_spec_witness :
    (compute_state (some ((32400:ℚ), 61200)) (some 33120) 36000).status
      = .IN_SHIFT ∧
    (compute_state (some ((32400:ℚ), 61200)) (some 33120) 36000).worked_minutes
      = 60 ∧
    (compute_state (some ((32400:ℚ), 61200)) (some 33120) 36000).late_minutes
      = 12 := by
  have h := compute_state_matches_spec 32400 61200 33120 36000 (by norm_num)
  obtain ⟨h0, hb, hin, ha, hl, hc⟩ := h
  obtain ⟨hs, hw, hr⟩ := hin (by norm_num) (by norm_num)
  refine ⟨hs, ?_, ?_⟩
  · rw [hw, show ((36000:ℚ) - 32400) / 60 = ((60:ℤ):ℚ) by norm_num]
    exact Int.floor_intCast 60
  · rw [hl, show ((33120:ℚ) - 32400) / 60 = ((12:ℤ):ℚ) by norm_num,
      Int.floor_intCast 12]
    rfl

/-- A row of the daily_summaries table (schema in core/database.py,
lines 68-79): beyond the autoincrement primary key the columns are user_id,
date, productivity_percentage, category, late_minutes, focused_minutes,
non_work_minutes and idle_minutes; the schema declares no UNIQUE constraint
on (user_id, date). -/
structure SummaryRow where
  user_id : String
  date : String
  productivity_percentage : ℚ
  category : String
  late_minutes : ℤ
  focused_minutes : ℤ
  non_work_minutes : ℤ
  idle_minutes : ℤ
deriving DecidableEq, Repr

/-- The daily_summaries table: rows tagged with their autoincrement id, plus
the next id to assign. -/
structure SummaryTable where
  rows : List (ℕ × SummaryRow)
  next_id : ℕ
deriving DecidableEq, Repr

/-- Number of rows for one (user, date) key. -/
def count_key (t : SummaryTable) (user today : String) : ℕ :=
  (t.rows.filter (fun p => p.2.user_id = user && p.2.date = today)).length

/-- Empty table; sqlite autoincrement ids start at 1. -/
def empty_table : SummaryTable := { rows := [], next_id := 1 }

/-- Zeroed placeholder row inserted by core/session_tracker.py
_ensure_today_summary_row (values from lines 214-223). -/
def zero_row_core (user today : String) : SummaryRow :=
  { user_id := user, date := today, productivity_percentage := 0,
    category := "UNDEFINED", late_minutes := 0, focused_minutes := 0,
    non_work_minutes := 0, idle_minutes := 0 }

/-- Zeroed placeholder row inserted by the Vision_buisness-main variant
(values from line 198 of its _ensure_today_summary_row). -/
def zero_row_main (user today : String) : SummaryRow :=
  { user_id := user, date := today, productivity_percentage := 0,
    category := "Unknown", late_minutes := 0, focused_minutes := 0,
    non_work_minutes := 0, idle_minutes := 0 }

/-- SessionTracker._ensure_today_summary_row (core/session_tracker.py,
lines 178-226): SELECT the row for (user_id, today); when fetchone returns
nothing, INSERT the zeroed placeholder row; an existing row is left
untouched. -/
def ensure_today_summary_row_core (user today : String) (t : SummaryTable) :
    SummaryTable :=
  match t.rows.find? (fun p => p.2.user_id = user && p.2.date = today) with
  | some _ => t
  | none =>
    { rows := t.rows ++ [(t.next_id, zero_row_core user today)],
      next_id := t.next_id + 1 }

/-- SessionTracker._ensure_today_summary_row of the Vision_buisness-main
variant (Vision_buisness-main/core/session_tracker.py, lines 177-202):
INSERT OR IGNORE of the zeroed placeholder row.  OR IGNORE suppresses the
insert only on a uniqueness violation, and the only uniqueness constraint of
daily_summaries is the autoincrement primary key, which is always fresh, so
the conflict test below is never satisfied and the insert always happens. -/
def ensure_today_summary_row_main (user today : String) (t : SummaryTable) :
    SummaryTable :=
  match t.rows.find? (fun p => p.1 = t.next_id) with
  | some _ => t
  | none =>
    { rows := t.rows ++ [(t.next_id, zero_row_main user today)],
      next_id := t.next_id + 1 }

/-- C9: the INSERT OR IGNORE variant of the ensure-summary operation is not
idempotent: called twice on an empty table for the same (user, date) it
leaves two rows for that key, because the schema has no UNIQUE constraint on
(user_id, date) for OR IGNORE to fire on; the SELECT-then-INSERT variant of
core/session_tracker.py does leave exactly one row. -/
theorem ensure_summary_row_duplicates :
    count_key (ensure_today_summary_row_main "u1" "2026-10-12"
      (ensure_today_summary_row_main "u1" "2026-10-12" empty_table))
      "u1" "2026-10-12" = 2 ∧
    count_key (ensure_today_summary_row_core "u1" "2026-10-12"
      (ensure_today_summary_row_core "u1" "2026-10-12" empty_table))
      "u1" "2026-10-12" = 1 := by
  constructor <;> rfl

/-- Python values held in object attributes, as far as the embedding needs
to distinguish them. -/
inductive PyVal
  | num (q : ℚ)
  | str (s : String)
  | obj (cls : String)
  | pynone
  | boolv (b : Bool)
deriving DecidableEq, Repr

/-- Python errors raised by the embedded operations. -/
inductive PyError
  | attributeError (name : String)
  | typeError
deriving DecidableEq, Repr

/-- An object attribute environment: attribute name to value. -/
def AttrEnv : Type := List (String × PyVal)

/-- Python attribute lookup: the value bound to the name, or nothing when the
object has no such attribute. -/
def attr_lookup (env : AttrEnv) (name : String) : Option PyVal :=
  (List.find? (fun p => p.1 = name) env).map Prod.snd

/-- Reading self.name: AttributeError when the instance does not carry the
attribute. -/
def read_attr (env : AttrEnv) (name : String) : Except PyError PyVal :=
  match attr_lookup env name with
  | some v => Except.ok v
  | none => Except.error (PyError.attributeError name)

/-- Reading self.name expecting a number. -/
def read_num (env : AttrEnv) (name : String) : Except PyError ℚ :=
  match attr_lookup env name with
  | some (PyVal.num q) => Except.ok q
  | some _ => Except.error PyError.typeError
  | none => Except.error (PyError.attributeError name)

/-- Reading self.name expecting a string. -/
def read_str (env : AttrEnv) (name : String) : Except PyError String :=
  match attr_lookup env name with
  | some (PyVal.str s) => Except.ok s
  | some _ => Except.error PyError.typeError
  | none => Except.error (PyError.attributeError name)

/-- Attributes of a SessionTracker instance of core/session_tracker.py at the
final-flush point of stop_session (the second definition of stop_session,
lines 354-384, is the one bound on the class): every attribute that __init__
(lines 35-60), start_session (lines 66-98) and the body of stop_session
before the flush assign on self.  No statement in the class ever binds
focused_seconds, non_work_seconds, idle_seconds, productivity_calculator or
late_minutes on self: the counters live on the monitor objects and the
calculator is stored as _productivity_calc. -/
def tracker_attrs_at_final_flush (user : String) : AttrEnv :=
  [("db", PyVal.obj "Database"), ("conn", PyVal.obj "Connection"),
   ("_db_lock", PyVal.obj "Lock"), ("user_id", PyVal.str user),
   ("_camera_monitor", PyVal.pynone), ("_pc_monitor", PyVal.pynone),
   ("_productivity_calc", PyVal.obj "ProductivityCalculator"),
   ("_summary_thread", PyVal.pynone), ("_summary_running", PyVal.boolv false),
   ("_current_focus_state", PyVal.obj "FocusState"),
   ("_current_pc_app", PyVal.pynone),
   ("_current_pc_label", PyVal.obj "ActivityLabel"),
   ("_ui_focus_callback", PyVal.pynone), ("_ui_pc_callback", PyVal.pynone),
   ("_ui_frame_callback", PyVal.pynone),
   ("_shift_service", PyVal.obj "ShiftService"),
   ("_login_time", PyVal.obj "datetime")]

/-- SessionTracker._update_daily_summary (core/session_tracker.py,
lines 420-463): reads self.focused_seconds, self.non_work_seconds,
self.idle_seconds for the minute conversions, calls
self.productivity_calculator.calculate_score with them and
self.late_minutes, and finally issues the UPDATE of the daily_summaries row
for (self.user_id, today).  Attribute reads happen in source order; a missing
attribute raises AttributeError at the first failing read. -/
def update_daily_summary (self : AttrEnv) (t : SummaryTable) (today : String) :
    Except PyError SummaryTable := do
  let fs ← read_num self "focused_seconds"
  let nws ← read_num self "non_work_seconds"
  let ids ← read_num self "idle_seconds"
  let focused_min := ⌊fs / 60⌋
  let non_work_min := ⌊nws / 60⌋
  let idle_min := ⌊ids / 60⌋
  let _ ← read_attr self "productivity_calculator"
  let lm ← read_num self "late_minutes"
  let score := calculate_score fs nws ids ⌊lm⌋
  let category := category_name (categorize score)
  let uid ← read_str self "user_id"
  let upd : SummaryRow → SummaryRow := fun r =>
    { r with
      productivity_percentage := score
      category := category
      late_minutes := ⌊lm⌋
      focused_minutes := focused_min
      non_work_minutes := non_work_min
      idle_minutes := idle_min }
  Except.ok
    { t with rows := t.rows.map (fun p =>
        if p.2.user_id = uid && p.2.date = today then (p.1, upd p.2) else p) }

/-- Final-flush step of SessionTracker.stop_session (core/session_tracker.py,
lines 380-384): _update_daily_summary wrapped in try/except pass, so on any
exception the table is left exactly as it was. -/
def stop_session_final_flush (self : AttrEnv) (t : SummaryTable)
    (today : String) : SummaryTable :=
  match update_daily_summary self t today with
  | Except.ok t2 => t2
  | Except.error _ => t

/-- C3: the final flush of stop_session never writes anything: for every
table state, _update_daily_summary raises AttributeError on its very first
read (self.focused_seconds, an attribute the class never assigns),
stop_session swallows the exception, and the persisted daily summary row
keeps its pre-stop values instead of the counters observed at stop. -/
theorem final_flush_writes_nothing (user today : String) (t : SummaryTable) :
    update_daily_summary (tracker_attrs_at_final_flush user) t today
      = Except.error (PyError.attributeError "focused_seconds") ∧
    stop_session_final_flush (tracker_attrs_at_final_flush user) t today = t := by
  constructor <;> rfl

/-- A focus_logs record (schema in core/database.py, table focus_logs). -/
structure FocusLog where
  user_id : String
  timestamp : String
  status : FocusState
  score_value : ℤ
deriving DecidableEq, Repr

/-- The slice of SessionTracker state touched by _on_focus_state_change,
plus the list of states forwarded to the registered UI callback. -/
structure TrackerFocusCtx where
  user_id : Option String
  current_focus_state : FocusState
  focus_logs : List FocusLog
  ui_registered : Bool
  ui_notified : List FocusState
deriving DecidableEq, Repr

/-- Argument handed to cursor.execute: either a SQL string or the literal
Ellipsis that core/session_tracker.py line 245 passes. -/
inductive SqlArg
  | ellipsis
  | query (sql : String)
deriving DecidableEq, Repr

/-- cursor.execute of sqlite3 requires the operation argument to be a
string; executing the Ellipsis literal raises TypeError. -/
def cursor_execute : SqlArg → Except PyError Unit
  | SqlArg.ellipsis => Except.error PyError.typeError
  | SqlArg.query _ => Except.ok ()

/-- score_map of _on_focus_state_change (core/session_tracker.py,
lines 249-253). -/
def score_map : FocusState → ℤ
  | .FOCUSED => 100
  | .DISTRACTED => 60
  | .AWAY => 0

/-- SessionTracker._on_focus_state_change (core/session_tracker.py,
lines 233-273).  After the user_id guard it stores the new state, then inside
the lock block executes the literal Ellipsis statement (line 245) before ever
reaching the real INSERT INTO focus_logs (lines 258-266) or the UI forward
(lines 269-273).  The mutation made before the raise survives; the raised
TypeError propagates to the calling monitor thread, which is the second
component of the result. -/
def on_focus_state_change (state : FocusState) (now : String)
    (ts : TrackerFocusCtx) : TrackerFocusCtx × Option PyError :=
  match ts.user_id with
  | none => (ts, none)
  | some uid =>
    let ts1 := { ts with current_focus_state := state }
    match cursor_execute SqlArg.ellipsis with
    | Except.error e => (ts1, some e)
    | Except.ok _ =>
      let rec0 : FocusLog := FocusLog.mk uid now state (score_map state)
      let ts2 := { ts1 with focus_logs := ts1.focus_logs ++ [rec0] }
      if ts2.ui_registered then
        ({ ts2 with ui_notified := ts2.ui_notified ++ [state] }, none)
      else (ts2, none)

/-- C5: a stable focus transition delivered while a session is active never
appends a FocusEvent and never reaches the UI observer: the Ellipsis
placeholder passed to cursor.execute raises TypeError first, so the handler
returns with focus_logs and ui_notified unchanged (only the in-memory current
state was updated) and the exception escapes to the monitor thread. -/
theorem focus_event_never_written (uid now : String) (st cur : FocusState)
    (logs : List FocusLog) (notified : List FocusState) :
    on_focus_state_change st now
      (TrackerFocusCtx.mk (some uid) cur logs true notified)
      = (TrackerFocusCtx.mk (some uid) st logs true notified,
         some PyError.typeError) := rfl

end VisionBusiness
